import Mathlib

/-!
Portfolio server (`server.js`): a shallow embedding of its request handlers

The Express handlers of `server.js` are embedded as pure functions from the
inputs a request can observe (parsed body, `process.env`, the mail provider,
the filesystem, the events of a read stream) to a record of everything the
handler does: the reply sent to the client, the calls it issues and what it
writes on the console.

Conventions for JavaScript values:
* a field of `req.body` and a variable of `process.env` is a string or is
  missing (`undefined`): `Option String`;
* an exception is a value of `JSError`;
* the handlers are stated for any mail provider, `path.join` and filesystem;
  `nodemailer` below is the provider module that `server.js` requires.
-/

namespace Portfolio

/-! ## JavaScript values -/

/-- A thrown JavaScript error: its `name` and its `message`. -/
structure JSError where
  name : String
  message : String
  deriving DecidableEq, Repr

/-- JavaScript truthiness of a value that is a string or `undefined`:
`!v` is `true` exactly for `undefined` and for the empty string. -/
def truthy : Option String → Bool
  | none => false
  | some s => !(s == "")

/-- String conversion performed by a template literal substitution. -/
def toStr : Option String → String
  | none => "undefined"
  | some s => s

/-- Characters produced for one character by `.replace(/\n/g, '<br>')`. -/
def brChar (c : Char) : List Char :=
  if c = '\n' then ['<', 'b', 'r', '>'] else [c]

/-- The string method call `s.replace(/\n/g, '<br>')`: every line feed of `s`
becomes the four characters `<br>`. -/
def replaceNewlines (s : String) : String :=
  ⟨s.data.flatMap brChar⟩

/-- The expression `message.replace(/\n/g, '<br>')` on a value that may be
`undefined`: a property access on `undefined` throws a `TypeError`. -/
def replaceCall : Option String → Except JSError String
  | none => .error ⟨"TypeError", "Cannot read properties of undefined (reading replace)"⟩
  | some s => .ok (replaceNewlines s)

/-! ## Console -/

/-- The console method used. -/
inductive LogLevel where
  | log
  | error
  deriving DecidableEq, Repr

/-- The second argument of a console call, when there is one. -/
inductive LogArg where
  | none
  | str (s : String)
  | err (e : JSError)
  | submission (name email subject : Option String)
  deriving DecidableEq, Repr

/-- One call of `console.log` or `console.error`. -/
structure LogEntry where
  level : LogLevel
  text : String
  arg : LogArg
  deriving DecidableEq, Repr

/-! ## JSON replies -/

/-- The JSON object passed to `res.json` by the contact and resume handlers:
`success`, `message` and the optional `demo` flag. -/
structure JsonReply where
  success : Bool
  message : String
  demo : Option Bool
  deriving DecidableEq, Repr

/-- What the client receives from a handler that answers with `res.json`. -/
structure HttpReply where
  status : Nat
  body : JsonReply
  deriving DecidableEq, Repr

/-! ## POST /api/contact -/

/-- The parsed request body `req.body`, destructured into its four fields.
The body is the object the body parsers produce, and each field is a string
or is missing, as in a form post. -/
structure ContactBody where
  name : Option String
  email : Option String
  subject : Option String
  message : Option String
  deriving DecidableEq, Repr

/-- The two variables of `process.env` read by the contact handler. -/
structure Env where
  GMAIL_USER : Option String
  GMAIL_APP_PASSWORD : Option String
  deriving DecidableEq, Repr

/-- The argument of `nodemailer.createTransporter`. -/
structure TransportConfig where
  service : String
  user : Option String
  pass : Option String
  deriving DecidableEq, Repr

/-- The object `ownerMailOptions`; `from_` and `to_` are its properties `from`
and `to`. -/
structure MailOptions where
  from_ : Option String
  to_ : Option String
  subject : String
  html : String
  deriving DecidableEq, Repr

/-- The object returned by `createTransporter`: its `sendMail` method either
resolves or rejects with an error. -/
structure Transporter where
  sendMail : MailOptions → Except JSError Unit

/-- The mail provider as the handler calls it: `createTransporter` either
returns a transporter or throws. -/
structure Provider where
  createTransporter : TransportConfig → Except JSError Transporter

/-- The module `nodemailer` that `server.js` requires. The module exports
`createTransport`; it has no property `createTransporter`, so the call
`nodemailer.createTransporter(...)` throws a `TypeError` and no transporter
exists afterwards. -/
def nodemailer : Provider :=
  ⟨fun _ => .error ⟨"TypeError", "nodemailer.createTransporter is not a function"⟩⟩

/-- A call made on the mail provider. -/
inductive ProviderCall where
  | createTransporter (cfg : TransportConfig)
  | sendMail (opts : MailOptions)
  deriving DecidableEq, Repr

/-- Everything one run of the contact handler does. -/
structure ContactRun where
  reply : HttpReply
  calls : List ProviderCall
  console : List LogEntry
  deriving DecidableEq, Repr

/-- The template literal of the `html` property, with the already converted
message text as its last substitution. -/
def htmlBody (name email subject : Option String) (messageHtml : String) : String :=
  "\n                <h2>New Contact Form Submission</h2>\n                <p><strong>Name:</strong> "
    ++ toStr name
    ++ "</p>\n                <p><strong>Email:</strong> "
    ++ toStr email
    ++ "</p>\n                <p><strong>Subject:</strong> "
    ++ toStr subject
    ++ "</p>\n                <p><strong>Message:</strong></p>\n                <p>"
    ++ messageHtml
    ++ "</p>\n            "

/-- The object literal `ownerMailOptions`; evaluating it throws when
`message.replace` throws. -/
def ownerMailOptions (env : Env) (body : ContactBody) : Except JSError MailOptions :=
  match replaceCall body.message with
  | .error e => .error e
  | .ok messageHtml =>
    .ok { from_ := env.GMAIL_USER
          to_ := env.GMAIL_USER
          subject := "Portfolio Contact: " ++ toStr body.subject
          html := htmlBody body.name body.email body.subject messageHtml }

/-- The argument object of `createTransporter`. -/
def transportConfig (env : Env) : TransportConfig :=
  { service := "gmail", user := env.GMAIL_USER, pass := env.GMAIL_APP_PASSWORD }

/-- The first console line of the contact handler. -/
def receivedLog (body : ContactBody) : LogEntry :=
  ⟨.log, "📧 Contact form submission received:", .submission body.name body.email body.subject⟩

/-- The `catch` block of the contact handler: log the error, answer 500 with
a fixed body. -/
def contactCatch (error : JSError) (calls : List ProviderCall) (console : List LogEntry) :
    ContactRun :=
  { reply := ⟨500, ⟨false, "Failed to send message. Please try again later.", none⟩⟩
    calls := calls
    console := console ++ [⟨.error, "❌ Contact form error:", .err error⟩] }

/-- The handler of `POST /api/contact`. The handler waits for `sendMail`, so
a run is given a provider whose calls return or raise. -/
def contactHandler (env : Env) (provider : Provider) (body : ContactBody) : ContactRun :=
  let console := [receivedLog body]
  -- Validation
  if !truthy body.name || !truthy body.email || !truthy body.subject || !truthy body.message then
    { reply := ⟨400, ⟨false, "All fields are required", none⟩⟩, calls := [], console := console }
  -- Check if email is configured
  else if !truthy env.GMAIL_USER || !truthy env.GMAIL_APP_PASSWORD then
    { reply := ⟨200, ⟨true,
        "Thank you for your message! I will get back to you soon. (Demo mode)", some true⟩⟩
      calls := []
      console := console ++ [⟨.log, "Email not configured, simulating success", .none⟩] }
  else
    -- Create email transporter
    let calls := [ProviderCall.createTransporter (transportConfig env)]
    match provider.createTransporter (transportConfig env) with
    | .error e => contactCatch e calls console
    | .ok transporter =>
      -- Email to portfolio owner
      match ownerMailOptions env body with
      | .error e => contactCatch e calls console
      | .ok opts =>
        -- Send email
        let calls := calls ++ [ProviderCall.sendMail opts]
        match transporter.sendMail opts with
        | .error e => contactCatch e calls console
        | .ok _ =>
          { reply := ⟨200, ⟨true, "Thank you for your message! I will get back to you soon.",
              none⟩⟩
            calls := calls
            console := console ++
              [⟨.log, "✅ Email sent successfully for: " ++ toStr body.name, .none⟩] }

/-- A field of the submission that is present and non-empty. -/
def present (v : Option String) : Prop :=
  v ≠ none ∧ v ≠ some ""

instance (v : Option String) : Decidable (present v) :=
  inferInstanceAs (Decidable (v ≠ none ∧ v ≠ some ""))

/-- A field of the submission that is missing or empty. -/
def missingOrEmpty (v : Option String) : Prop :=
  v = none ∨ v = some ""

instance (v : Option String) : Decidable (missingOrEmpty v) :=
  inferInstanceAs (Decidable (v = none ∨ v = some ""))

/-- A valid submission: the four fields are present and non-empty. -/
def ContactBody.valid (b : ContactBody) : Prop :=
  present b.name ∧ present b.email ∧ present b.subject ∧ present b.message

instance (b : ContactBody) : Decidable b.valid :=
  inferInstanceAs (Decidable (present b.name ∧ present b.email ∧ present b.subject ∧
    present b.message))

/-- A submission with a field missing or empty. -/
def ContactBody.incomplete (b : ContactBody) : Prop :=
  missingOrEmpty b.name ∨ missingOrEmpty b.email ∨ missingOrEmpty b.subject ∨
    missingOrEmpty b.message

instance (b : ContactBody) : Decidable b.incomplete :=
  inferInstanceAs (Decidable (missingOrEmpty b.name ∨ missingOrEmpty b.email ∨
    missingOrEmpty b.subject ∨ missingOrEmpty b.message))

/-- The provider raises an error during the dispatch of a submission: either
`createTransporter` throws, or it returns a transporter whose `sendMail`
rejects the message built for the submission. -/
def Provider.raises (p : Provider) (env : Env) (body : ContactBody) : Prop :=
  match p.createTransporter (transportConfig env) with
  | .error _ => True
  | .ok t =>
    match ownerMailOptions env body with
    | .error _ => False
    | .ok opts =>
      match t.sendMail opts with
      | .error _ => True
      | .ok _ => False

/-- A provider whose `sendMail` rejects with the given error. -/
def failingProvider (e : JSError) : Provider :=
  ⟨fun _ => .ok ⟨fun _ => .error e⟩⟩

/-- A provider whose `createTransporter` throws the given error. -/
def brokenProvider (e : JSError) : Provider :=
  ⟨fun _ => .error e⟩

/-- Both mail credentials are set to a non-empty value. -/
def Env.configured (env : Env) : Prop :=
  present env.GMAIL_USER ∧ present env.GMAIL_APP_PASSWORD

instance (env : Env) : Decidable env.configured :=
  inferInstanceAs (Decidable (present env.GMAIL_USER ∧ present env.GMAIL_APP_PASSWORD))

/-- One of the two mail credentials is absent (or set to the empty string,
which `!process.env.X` does not tell from absent). -/
def Env.unconfigured (env : Env) : Prop :=
  missingOrEmpty env.GMAIL_USER ∨ missingOrEmpty env.GMAIL_APP_PASSWORD

instance (env : Env) : Decidable env.unconfigured :=
  inferInstanceAs (Decidable (missingOrEmpty env.GMAIL_USER ∨
    missingOrEmpty env.GMAIL_APP_PASSWORD))

/-- The text `needle` occurs in the text `hay`. -/
def occursIn (needle hay : String) : Prop :=
  needle.data <:+: hay.data

/-! ## Node modules `path` and `fs`, and the Express response object -/

/-- A byte of a file or of a response body. -/
abbrev Byte := UInt8

/-- What the handlers can observe of the machine they run on: the directory
of `server.js` (the document root), `path.join`, and the content of the entry
found at a path, if there is one. -/
structure FileSystem where
  dirname : String
  join : String → String → String
  files : String → Option (List Byte)

/-- The call `fs.existsSync(path)`. -/
def FileSystem.existsSync (fs : FileSystem) (path : String) : Bool :=
  (fs.files path).isSome

/-- The expression `fs.statSync(path).size`; `statSync` throws on a path with
no entry. -/
def FileSystem.statSize (fs : FileSystem) (path : String) : Except JSError Nat :=
  match fs.files path with
  | none => .error ⟨"Error", "ENOENT: no such file or directory, stat"⟩
  | some content => .ok content.length

/-- The events of a read stream: the chunks it emits as `data`, followed by
`end` when `error` is `none` and by the `error` event otherwise. -/
structure ReadOutcome where
  chunks : List (List Byte)
  error : Option JSError
  deriving DecidableEq, Repr

/-- A read stream of a file with the given content delivers the content when
it ends, and a part of it from the start when it fails. -/
def ReadOutcome.reads (o : ReadOutcome) (content : List Byte) : Prop :=
  match o.error with
  | none => o.chunks.flatten = content
  | some _ => o.chunks.flatten <+: content

/-- A header value: a string or a number. -/
inductive HeaderVal where
  | str (s : String)
  | num (n : Nat)
  deriving DecidableEq, Repr

/-- The state of the response object `res`: the status code, the headers the
statements of `server.js` have stored (`setHeader`, `download`), whether the
header block has left, the header block as it left (`head`: the status code
and, of the headers on the wire, those stored by the handler or written by
`res.json`), the raw bytes written to the body, the object sent with
`res.json`, and whether the response is complete. Headers that the middleware,
Express and node add on their own (`X-Powered-By`, `ETag`, `Date`, ...) are
not represented. -/
structure Res where
  statusCode : Nat
  headers : List (String × HeaderVal)
  headersSent : Bool
  head : Option (Nat × List (String × HeaderVal))
  sent : List Byte
  json : Option JsonReply
  finished : Bool
  deriving DecidableEq, Repr

/-- The response object a handler receives: status 200, nothing sent. -/
def Res.fresh : Res :=
  { statusCode := 200, headers := [], headersSent := false, head := none, sent := [],
    json := none, finished := false }

/-- Store a header, replacing a value already stored under the name. -/
def setHeaderIn : List (String × HeaderVal) → String → HeaderVal → List (String × HeaderVal)
  | [], k, v => [(k, v)]
  | (k', v') :: rest, k, v =>
    if k' = k then (k, v) :: rest else (k', v') :: setHeaderIn rest k v

/-- The value stored under a name in a list of headers. -/
def lookupHeader (hs : List (String × HeaderVal)) (k : String) : Option HeaderVal :=
  (hs.find? fun kv => kv.1 == k).map Prod.snd

/-- The status code the client received, once the header block has left. -/
def Res.sentStatus (r : Res) : Option Nat :=
  r.head.map Prod.fst

/-- The value of a header the client received, once the header block has
left. -/
def Res.sentHeader (r : Res) (k : String) : Option HeaderVal :=
  r.head.bind fun h => lookupHeader h.2 k

/-- The header block as it leaves with a first write or with `end`: the
status code and the stored headers of that moment. -/
def Res.headNow (r : Res) : Option (Nat × List (String × HeaderVal)) :=
  if r.headersSent then r.head else some (r.statusCode, r.headers)

/-- The write of one chunk by a pipe: the header block leaves with the first
write and the chunk is added to the body. -/
def Res.write (r : Res) (chunk : List Byte) : Res :=
  { r with headersSent := true, head := r.headNow, sent := r.sent ++ chunk }

/-- The call `res.end()` made by a pipe when its source ends. -/
def Res.end_ (r : Res) : Res :=
  { r with headersSent := true, head := r.headNow, finished := true }

/-- The character `"`. -/
def quoteChar : Char := Char.ofNat 34

/-- The character `\`. -/
def backslashChar : Char := Char.ofNat 92

/-- A lower-case hexadecimal digit. -/
def hexDigit (n : Nat) : Char :=
  if n < 10 then Char.ofNat (48 + n) else Char.ofNat (87 + n)

/-- The characters `JSON.stringify` writes for one character of a string. -/
def jsonEscape (c : Char) : List Char :=
  if c = quoteChar then [backslashChar, quoteChar]
  else if c = backslashChar then [backslashChar, backslashChar]
  else if c = Char.ofNat 8 then [backslashChar, 'b']
  else if c = Char.ofNat 9 then [backslashChar, 't']
  else if c = Char.ofNat 10 then [backslashChar, 'n']
  else if c = Char.ofNat 12 then [backslashChar, 'f']
  else if c = Char.ofNat 13 then [backslashChar, 'r']
  else if c.toNat < 32 then
    [backslashChar, 'u', '0', '0', hexDigit (c.toNat / 16), hexDigit (c.toNat % 16)]
  else [c]

/-- The text `JSON.stringify` writes for a string. -/
def jsonString (s : String) : String :=
  ⟨quoteChar :: (s.data.flatMap jsonEscape ++ [quoteChar])⟩

/-- The text `JSON.stringify` writes for a boolean. -/
def jsonBool (b : Bool) : String :=
  if b then "true" else "false"

/-- The text `JSON.stringify` writes for a reply object: its properties in
the order of the object literal, `demo` only when it is there. -/
def JsonReply.stringify (b : JsonReply) : String :=
  "\x7b\"success\":" ++ jsonBool b.success ++ ",\"message\":" ++ jsonString b.message
    ++ (match b.demo with
        | none => ""
        | some d => ",\"demo\":" ++ jsonBool d)
    ++ "\x7d"

/-- The number of bytes of a character in UTF-8. -/
def utf8Size (c : Char) : Nat :=
  if c.toNat < 128 then 1 else if c.toNat < 2048 then 2 else if c.toNat < 65536 then 3 else 4

/-- The number of bytes of a text in UTF-8 (`Buffer.byteLength`). -/
def byteLength (s : String) : Nat :=
  (s.data.map utf8Size).sum

/-- The `Content-Type` with which `res.json` sends its text: the stored type
with the parameter `charset=utf-8` (for a stored type written without
parameters, as the one of `server.js` is), and `application/json` with that
parameter when no type is stored. -/
def jsonContentType (hs : List (String × HeaderVal)) : HeaderVal :=
  match lookupHeader hs "Content-Type" with
  | some (.str t) => if t = "" then .str "application/json; charset=utf-8"
    else .str (t ++ "; charset=utf-8")
  | some (.num n) => .num n
  | none => .str "application/json; charset=utf-8"

/-- The headers with which `res.json(body)` sends its text: the stored
headers, with `Content-Type` as `jsonContentType` gives it and
`Content-Length` overwritten with the byte length of the text. -/
def jsonHeaders (hs : List (String × HeaderVal)) (body : JsonReply) :
    List (String × HeaderVal) :=
  setHeaderIn (setHeaderIn hs "Content-Type" (jsonContentType hs)) "Content-Length"
    (.num (byteLength body.stringify))

/-- The error node throws when a header is set after the header block left. -/
def errHeadersSent : JSError :=
  ⟨"Error", "Cannot set headers after they are sent to the client"⟩

/-- A call a handler makes on `fs` or on `res`. -/
inductive Call where
  | existsSync (path : String)
  | statSync (path : String)
  | createReadStream (path : String)
  | setHeader (name : String) (value : HeaderVal)
  | pipe
  | status (code : Nat)
  | json (body : JsonReply)
  | download (path filename : String)
  deriving DecidableEq, Repr

/-- The state of one run of a resume handler: the response object, the calls
made so far, the console, and the exception in flight, if any. At the end of
a run `thrown` holds an exception nobody caught. -/
structure Run where
  res : Res
  calls : List Call
  console : List LogEntry
  thrown : Option JSError
  deriving DecidableEq, Repr

/-- The start of a run. -/
def Run.start : Run :=
  { res := Res.fresh, calls := [], console := [], thrown := none }

/-- A statement is skipped while an exception is in flight. -/
def Run.step (r : Run) (f : Run → Run) : Run :=
  match r.thrown with
  | some _ => r
  | none => f r

/-- A call of `console.log` or `console.error`. -/
def Run.log (r : Run) (level : LogLevel) (text : String) (arg : LogArg) : Run :=
  r.step fun r => { r with console := r.console ++ [⟨level, text, arg⟩] }

/-- A call on `fs` that cannot throw. -/
def Run.call (r : Run) (c : Call) : Run :=
  r.step fun r => { r with calls := r.calls ++ [c] }

/-- The call `res.setHeader(name, value)`: throws once the header block has
left. -/
def Run.setHeader (r : Run) (name : String) (value : HeaderVal) : Run :=
  r.step fun r =>
    let r : Run := { r with calls := r.calls ++ [Call.setHeader name value] }
    if r.res.headersSent then { r with thrown := some errHeadersSent }
    else { r with res := { r.res with headers := setHeaderIn r.res.headers name value } }

/-- The call `res.status(code)`: stores the code. -/
def Run.status (r : Run) (code : Nat) : Run :=
  r.step fun r =>
    { r with calls := r.calls ++ [Call.status code], res := { r.res with statusCode := code } }

/-- The call `res.json(body)`: sends the object as JSON text and completes
the response. It sets `Content-Type` and `Content-Length` on the way, so it
throws once the header block has left; otherwise the header block leaves with
the status code and `jsonHeaders`. -/
def Run.json (r : Run) (body : JsonReply) : Run :=
  r.step fun r =>
    let r : Run := { r with calls := r.calls ++ [Call.json body] }
    if r.res.headersSent then { r with thrown := some errHeadersSent }
    else { r with res := { r.res with json := some body, headersSent := true,
                                      head := some (r.res.statusCode, jsonHeaders r.res.headers body),
                                      finished := true } }

/-- The end of a `try` block: an exception in flight is handed to the
`catch` block. -/
def Run.tryCatch (r : Run) (handler : JSError → Run → Run) : Run :=
  match r.thrown with
  | none => r
  | some e => handler e { r with thrown := none }

/-! ## GET /download-resume -/

/-- The constant `resumeFileName`. -/
def resumeFileName : String := "Aniket Ressume.docx"

/-- The name the client sees for the downloaded file. -/
def downloadName : String := "Aniket_Igade_Resume.docx"

/-- The MIME type of a `.docx` document. -/
def docxMime : String :=
  "application/vnd.openxmlformats-officedocument.wordprocessingml.document"

/-- The value given to `Content-Disposition`. -/
def attachmentDisposition : String := "attachment; filename=\"Aniket_Igade_Resume.docx\""

/-- The reply sent when the resume is not on disk. -/
def notFoundReply : JsonReply := ⟨false, "Resume file not found", none⟩

/-- The `catch` block of the `/download-resume` handler. -/
def downloadCatch (error : JSError) (r : Run) : Run :=
  ((r.log LogLevel.error "❌ Resume download error:" (LogArg.err error)).status 500).json
    ⟨false, "Failed to download resume", none⟩

/-- The listener of the `error` event of `fileStream`. -/
def onStreamError (error : JSError) (r : Run) : Run :=
  ((r.log LogLevel.error "❌ Error streaming resume file:" (LogArg.err error)).status 500).json
    ⟨false, "Error downloading resume", none⟩

/-- The listener of the `end` event of `fileStream`. -/
def onStreamEnd (r : Run) : Run :=
  r.log LogLevel.log "✅ Resume download completed successfully" LogArg.none

/-- The pipe `fileStream.pipe(res)` writes every chunk to the response. -/
def pipeChunks (chunks : List (List Byte)) (r : Run) : Run :=
  chunks.foldl (fun r chunk => { r with res := r.res.write chunk }) r

/-- What happens after the handler has returned: the chunks are piped; on
`end` the pipe ends the response and the `end` listener runs; on `error` the
pipe leaves the response as it is and the `error` listener runs. -/
def runStream (stream : ReadOutcome) (r : Run) : Run :=
  let r := pipeChunks stream.chunks r
  match stream.error with
  | none => onStreamEnd { r with res := r.res.end_ }
  | some e => onStreamError e r

/-- The statement `res.setHeader('Content-Length', fs.statSync(resumePath).size)`. -/
def Run.setContentLength (r : Run) (fs : FileSystem) (resumePath : String) : Run :=
  r.step fun r =>
    let r : Run := { r with calls := r.calls ++ [Call.statSync resumePath] }
    match fs.statSize resumePath with
    | .error e => { r with thrown := some e }
    | .ok size => r.setHeader "Content-Length" (.num size)

/-- The handler of `GET /download-resume`, followed by the events of the read
stream it opened. -/
def downloadResume (fs : FileSystem) (stream : ReadOutcome) : Run :=
  let resumePath := fs.join fs.dirname resumeFileName
  let r := Run.start.log LogLevel.log "📄 Resume download requested" LogArg.none
  let r := r.log LogLevel.log "📍 Looking for file:" (LogArg.str resumePath)
  -- Check if file exists
  let r := r.call (.existsSync resumePath)
  if !fs.existsSync resumePath then
    (((r.log LogLevel.log "❌ Resume file not found:" (LogArg.str resumeFileName)).status 404).json
      notFoundReply).tryCatch downloadCatch
  else
    let r := r.log LogLevel.log "✅ Resume file found, initiating download..." LogArg.none
    -- Set headers for download
    let r := r.setHeader "Content-Type" (.str docxMime)
    let r := r.setHeader "Content-Disposition" (.str attachmentDisposition)
    let r := r.setContentLength fs resumePath
    -- Stream the file
    let r := r.call (.createReadStream resumePath)
    let r := r.call .pipe
    match r.thrown with
    | some e => downloadCatch e { r with thrown := none }
    | none => runStream stream r

/-! ## GET /api/resume -/

/-- The callback given to `res.download`. -/
def downloadCallback (err : Option JSError) (r : Run) : Run :=
  match err with
  | some e =>
    let r := r.log LogLevel.error "❌ Download error:" (LogArg.err e)
    if !r.res.headersSent then
      (r.status 500).json ⟨false, "Error downloading resume", none⟩
    else r
  | none => r.log LogLevel.log "✅ Resume downloaded successfully" LogArg.none

/-- The `catch` block of the `/api/resume` handler. -/
def apiResumeCatch (error : JSError) (r : Run) : Run :=
  ((r.log LogLevel.error "❌ Resume endpoint error:" (LogArg.err error)).status 500).json
    ⟨false, "Server error", none⟩

/-- The Express helper `res.download(path, filename, callback)`: it sets the
attachment disposition for `filename`, transfers the file and calls the
callback with the error of the transfer, if any. -/
def resDownload (path filename : String) (transfer : ReadOutcome) (r : Run) : Run :=
  let r := r.call (.download path filename)
  let disposition := HeaderVal.str ("attachment; filename=\"" ++ filename ++ "\"")
  let r := r.step fun r =>
    let headers := setHeaderIn r.res.headers "Content-Disposition" disposition
    { r with res := { r.res with headers := headers } }
  match r.thrown with
  | some _ => r
  | none =>
    let r := pipeChunks transfer.chunks r
    match transfer.error with
    | none => downloadCallback none { r with res := r.res.end_ }
    | some e => downloadCallback (some e) r

/-- The handler of `GET /api/resume`, followed by the transfer it started. -/
def apiResume (fs : FileSystem) (transfer : ReadOutcome) : Run :=
  let resumePath := fs.join fs.dirname "Aniket Ressume.docx"
  let r := Run.start.call (.existsSync resumePath)
  if !fs.existsSync resumePath then
    ((r.status 404).json ⟨false, "Resume file not found", none⟩).tryCatch apiResumeCatch
  else
    resDownload resumePath "Aniket_Igade_Resume.docx" transfer r

/-- The client-visible reply of a run that answered with `res.json`. -/
def Run.reply (r : Run) : Option HttpReply :=
  r.res.json.map fun body => ⟨r.res.statusCode, body⟩

/-! ## GET /api/check-files -/

/-- One entry of `fileStatus`; `exists_` is its property `exists`. -/
structure FileStatus where
  file : String
  exists_ : Bool
  path : String
  deriving DecidableEq, Repr

/-- The JSON object sent by `/api/check-files`. -/
structure CheckFilesReply where
  success : Bool
  files : List FileStatus
  deriving DecidableEq, Repr

/-- The array `files` of the handler. -/
def checkedFiles : List String :=
  ["index2.html", "Aniket Ressume.docx", "Pt.jpg", "server.js", "package.json"]

/-- The handler of `GET /api/check-files`: status code and JSON body. -/
def checkFiles (fs : FileSystem) : Nat × CheckFilesReply :=
  let fileStatus := checkedFiles.map fun file =>
    let filePath := fs.join fs.dirname file
    let exists_ := fs.existsSync filePath
    { file := file, exists_ := exists_, path := filePath : FileStatus }
  (200, { success := true, files := fileStatus })

/-! ## Sample inputs -/

/-- A document root holding a three-byte resume and nothing else; paths are
joined with a slash. -/
def sampleDisk : FileSystem :=
  { dirname := "/srv/portfolio"
    join := fun dir file => dir ++ "/" ++ file
    files := fun path => if path = "/srv/portfolio/Aniket Ressume.docx" then some [80, 75, 3]
      else none }

/-- A document root with no entry at all. -/
def emptyDisk : FileSystem :=
  { dirname := "/srv/portfolio"
    join := fun dir file => dir ++ "/" ++ file
    files := fun _ => none }

/-- A read that delivers the three bytes in two chunks and ends. -/
def completeRead : ReadOutcome :=
  { chunks := [[80, 75], [3]], error := none }

/-- A read that delivers two bytes and then fails. -/
def brokenRead : ReadOutcome :=
  { chunks := [[80, 75]], error := some ⟨"Error", "EIO: i/o error, read"⟩ }

/-- A read that fails before it delivers a byte. -/
def failedOpen : ReadOutcome :=
  { chunks := [], error := some ⟨"Error", "EACCES: permission denied, open"⟩ }

/-! ## Theorems: POST /api/contact -/

theorem truthy_eq_false_iff (v : Option String) : truthy v = false ↔ missingOrEmpty v := by
  cases v with
  | none => simp [truthy, missingOrEmpty]
  | some s => simp [truthy, missingOrEmpty]

theorem truthy_of_present {v : Option String} (h : present v) : truthy v = true := by
  cases v with
  | none => exact absurd rfl h.1
  | some s =>
    have hs : s ≠ "" := fun he => h.2 (by rw [he])
    simp [truthy, hs]

theorem validation_fails_iff (body : ContactBody) :
    (!truthy body.name || !truthy body.email || !truthy body.subject || !truthy body.message)
      = true ↔ body.incomplete := by
  simp only [Bool.or_eq_true, Bool.not_eq_true', truthy_eq_false_iff, ContactBody.incomplete,
    or_assoc]

theorem validation_passes_of_valid {body : ContactBody} (h : body.valid) :
    (!truthy body.name || !truthy body.email || !truthy body.subject || !truthy body.message)
      = false := by
  obtain ⟨h1, h2, h3, h4⟩ := h
  simp [truthy_of_present h1, truthy_of_present h2, truthy_of_present h3, truthy_of_present h4]

theorem configured_check {env : Env} (h : env.configured) :
    (!truthy env.GMAIL_USER || !truthy env.GMAIL_APP_PASSWORD) = false := by
  simp [truthy_of_present h.1, truthy_of_present h.2]

theorem unconfigured_check {env : Env} (h : env.unconfigured) :
    (!truthy env.GMAIL_USER || !truthy env.GMAIL_APP_PASSWORD) = true := by
  rcases h with h | h
  · simp [(truthy_eq_false_iff _).mpr h]
  · simp [(truthy_eq_false_iff _).mpr h]

/-- C1: a submission with one of `name`, `email`, `subject`, `message`
missing or empty is answered, whatever the mail credentials and the provider,
with status 400 and `success: false`, and no call is made on the provider. -/
theorem contact_incomplete_rejected (env : Env) (provider : Provider) (body : ContactBody)
    (h : body.incomplete) :
    (contactHandler env provider body).reply.status = 400 ∧
      (contactHandler env provider body).reply.body.success = false ∧
      (contactHandler env provider body).calls = [] := by
  have hv := (validation_fails_iff body).mpr h
  simp only [contactHandler, hv, if_true, and_self]

theorem contact_incomplete_rejected_witness :
    (ContactBody.mk (some "Ada") none (some "Hello") (some "")).incomplete ∧
      (contactHandler ⟨some "owner@example.com", some "secret"⟩ nodemailer
        ⟨some "Ada", none, some "Hello", some ""⟩).reply.status = 400 :=
  ⟨by decide, (contact_incomplete_rejected _ nodemailer _ (by decide)).1⟩

/-- C2: a valid submission, when `GMAIL_USER` or `GMAIL_APP_PASSWORD` is
absent, is answered with status 200, `success: true` and `demo: true`, and no
call is made on the provider. -/
theorem contact_demo_mode (env : Env) (provider : Provider) (body : ContactBody)
    (hb : body.valid) (he : env.unconfigured) :
    (contactHandler env provider body).reply.status = 200 ∧
      (contactHandler env provider body).reply.body.success = true ∧
      (contactHandler env provider body).reply.body.demo = some true ∧
      (contactHandler env provider body).calls = [] := by
  simp [contactHandler, validation_passes_of_valid hb, unconfigured_check he]

theorem contact_demo_mode_witness :
    (ContactBody.mk (some "Ada") (some "ada@example.com") (some "Hello") (some "Hi")).valid ∧
      (Env.mk (some "owner@example.com") none).unconfigured ∧
      (contactHandler ⟨some "owner@example.com", none⟩ nodemailer
        ⟨some "Ada", some "ada@example.com", some "Hello", some "Hi"⟩).reply.body.demo
        = some true :=
  ⟨by decide, by decide, (contact_demo_mode _ nodemailer _ (by decide) (by decide)).2.2.1⟩

theorem contactHandler_nodemailer (env : Env) (body : ContactBody) (hb : body.valid)
    (he : env.configured) :
    contactHandler env nodemailer body
      = contactCatch ⟨"TypeError", "nodemailer.createTransporter is not a function"⟩
          [ProviderCall.createTransporter (transportConfig env)] [receivedLog body] := by
  simp [contactHandler, validation_passes_of_valid hb, configured_check he, nodemailer]

/-- C3 at a failing input: a valid submission with both credentials set. The
handler calls `nodemailer.createTransporter`, which the module does not have;
the call throws, and the `catch` block answers with status 500 and
`success: false` where the claim says status 200 and `success: true`. -/
theorem contact_configured_answers_500 :
    (ContactBody.mk (some "Ada") (some "ada@example.com") (some "Hello") (some "Hi")).valid ∧
      (Env.mk (some "owner@example.com") (some "secret")).configured ∧
      (contactHandler ⟨some "owner@example.com", some "secret"⟩ nodemailer
        ⟨some "Ada", some "ada@example.com", some "Hello", some "Hi"⟩).reply
        = ⟨500, ⟨false, "Failed to send message. Please try again later.", none⟩⟩ :=
  ⟨by decide, by decide, by
    rw [contactHandler_nodemailer _ _ (by decide) (by decide)]
    rfl⟩

/-- C9 at a failing input: a valid submission with both credentials set. The
only call on the provider is `createTransporter`, which throws; the object
`ownerMailOptions` is not built and `sendMail` is not called, where the claim
says that exactly one message is built and sent. -/
theorem contact_no_message_built :
    (ContactBody.mk (some "Ada") (some "ada@example.com") (some "Hello") (some "Hi")).valid ∧
      (Env.mk (some "owner@example.com") (some "secret")).configured ∧
      (contactHandler ⟨some "owner@example.com", some "secret"⟩ nodemailer
        ⟨some "Ada", some "ada@example.com", some "Hello", some "Hi"⟩).calls
        = [ProviderCall.createTransporter ⟨"gmail", some "owner@example.com", some "secret"⟩] ∧
      ∀ opts : MailOptions, ProviderCall.sendMail opts ∉
        (contactHandler ⟨some "owner@example.com", some "secret"⟩ nodemailer
          ⟨some "Ada", some "ada@example.com", some "Hello", some "Hi"⟩).calls := by
  have h := contactHandler_nodemailer ⟨some "owner@example.com", some "secret"⟩
    ⟨some "Ada", some "ada@example.com", some "Hello", some "Hi"⟩ (by decide) (by decide)
  refine ⟨by decide, by decide, ?_, ?_⟩
  · rw [h]
    rfl
  · intro opts
    rw [h]
    simp [contactCatch]

/-- C4: a valid submission, when both credentials are set and the provider
raises an error, is answered with status 500, `success: false` and a fixed
message; two runs that differ only in the provider (and so in the error it
raises) get equal replies. -/
theorem contact_provider_error_generic (env : Env) (p₁ p₂ : Provider) (body : ContactBody)
    (hb : body.valid) (he : env.configured) (h₁ : p₁.raises env body)
    (h₂ : p₂.raises env body) :
    (contactHandler env p₁ body).reply.status = 500 ∧
      (contactHandler env p₁ body).reply.body.success = false ∧
      (contactHandler env p₁ body).reply.body.message
        = "Failed to send message. Please try again later." ∧
      (contactHandler env p₁ body).reply = (contactHandler env p₂ body).reply := by
  have key : ∀ p : Provider, p.raises env body →
      (contactHandler env p body).reply
        = ⟨500, ⟨false, "Failed to send message. Please try again later.", none⟩⟩ := by
    intro p hp
    unfold Provider.raises at hp
    simp only [contactHandler, validation_passes_of_valid hb, configured_check he]
    cases hc : p.createTransporter (transportConfig env) with
    | error e => simp [contactCatch]
    | ok t =>
      cases ho : ownerMailOptions env body with
      | error e => simp [contactCatch]
      | ok opts =>
        cases hs : t.sendMail opts with
        | error e => simp [hs, contactCatch]
        | ok u => simp [hc, ho, hs] at hp
  rw [key p₁ h₁, key p₂ h₂]
  exact ⟨rfl, rfl, rfl, rfl⟩

theorem contact_provider_error_generic_witness :
    (contactHandler ⟨some "owner@example.com", some "secret"⟩
        (failingProvider ⟨"Error", "Invalid login: 535 bad credentials"⟩)
        ⟨some "Ada", some "ada@example.com", some "Hello", some "Hi"⟩).reply
      = (contactHandler ⟨some "owner@example.com", some "secret"⟩
        (brokenProvider ⟨"TypeError", "createTransporter is not a function"⟩)
        ⟨some "Ada", some "ada@example.com", some "Hello", some "Hi"⟩).reply :=
  (contact_provider_error_generic _ _ _ _ (by decide) (by decide)
    (by simp [Provider.raises, failingProvider, ownerMailOptions, replaceCall])
    (by simp [Provider.raises, brokenProvider])).2.2.2

/-- C8: a submission whose four fields are present and non-empty strings
passes the validation whatever the strings are: the reply is never the 400 of
the validation; a 400 is sent only for a submission with a field missing or
empty. -/
theorem contact_validation_presence_only (env : Env) (provider : Provider)
    (body : ContactBody) :
    (body.valid → (contactHandler env provider body).reply.status ≠ 400) ∧
      ((contactHandler env provider body).reply.status = 400 → body.incomplete) := by
  have hstat : ¬ body.incomplete → (contactHandler env provider body).reply.status ≠ 400 := by
    intro hv
    have hf : (!truthy body.name || !truthy body.email || !truthy body.subject ||
        !truthy body.message) = false := by
      rw [← Bool.not_eq_true]
      exact fun h => hv ((validation_fails_iff body).mp h)
    simp only [contactHandler, hf]
    by_cases hcfg : (!truthy env.GMAIL_USER || !truthy env.GMAIL_APP_PASSWORD) = true
    · simp [hcfg]
    · simp only [hcfg]
      cases hc : provider.createTransporter (transportConfig env) with
      | error e => simp [contactCatch]
      | ok t =>
        cases ho : ownerMailOptions env body with
        | error e => simp [contactCatch]
        | ok opts =>
          cases hs : t.sendMail opts with
          | error e => simp [hs, contactCatch]
          | ok u => simp [hs]
  refine ⟨fun hv => hstat ?_, fun h => ?_⟩
  · intro hi
    have h1 := (validation_fails_iff body).mpr hi
    rw [validation_passes_of_valid hv] at h1
    exact Bool.false_ne_true h1
  · by_contra hi
    exact hstat hi h

theorem contact_validation_presence_only_witness :
    (ContactBody.mk (some " ") (some "not an address") (some "\n") (some "  \n  ")).valid ∧
      (contactHandler ⟨none, none⟩ nodemailer
        ⟨some " ", some "not an address", some "\n", some "  \n  "⟩).reply.status ≠ 400 :=
  ⟨by decide, (contact_validation_presence_only _ nodemailer _).1 (by decide)⟩

/-! ## Theorems: resume download and file check -/

theorem pipeChunks_res (chunks : List (List Byte)) (r : Run) :
    (pipeChunks chunks r).res =
      { r.res with headersSent := r.res.headersSent || !chunks.isEmpty,
                   head := if chunks.isEmpty then r.res.head else r.res.headNow,
                   sent := r.res.sent ++ chunks.flatten } := by
  unfold pipeChunks
  induction chunks generalizing r with
  | nil => simp
  | cons c cs ih =>
    rw [List.foldl_cons, ih]
    cases cs <;> simp [Res.write, Res.headNow, List.append_assoc]

theorem pipeChunks_rest (chunks : List (List Byte)) (r : Run) :
    (pipeChunks chunks r).calls = r.calls ∧ (pipeChunks chunks r).console = r.console ∧
      (pipeChunks chunks r).thrown = r.thrown := by
  unfold pipeChunks
  induction chunks generalizing r with
  | nil => simp
  | cons c cs ih =>
    rw [List.foldl_cons]
    exact ih _

/-- The state in which the `/download-resume` handler returns when the resume
is on disk: three headers set, nothing sent, the stream piped. -/
theorem downloadResume_eq_of_found (fs : FileSystem) (stream : ReadOutcome) (content : List Byte)
    (hf : fs.files (fs.join fs.dirname resumeFileName) = some content) :
    downloadResume fs stream = runStream stream
      { res := { statusCode := 200
                 headers := [("Content-Type", .str docxMime),
                   ("Content-Disposition", .str attachmentDisposition),
                   ("Content-Length", .num content.length)]
                 headersSent := false, head := none, sent := [], json := none,
                 finished := false }
        calls := [.existsSync (fs.join fs.dirname resumeFileName),
          .setHeader "Content-Type" (.str docxMime),
          .setHeader "Content-Disposition" (.str attachmentDisposition),
          .statSync (fs.join fs.dirname resumeFileName),
          .setHeader "Content-Length" (.num content.length),
          .createReadStream (fs.join fs.dirname resumeFileName), .pipe]
        console := [⟨.log, "📄 Resume download requested", .none⟩,
          ⟨.log, "📍 Looking for file:", .str (fs.join fs.dirname resumeFileName)⟩,
          ⟨.log, "✅ Resume file found, initiating download...", .none⟩]
        thrown := none } := by
  simp [downloadResume, FileSystem.existsSync, FileSystem.statSize, hf, Run.start, Run.log,
    Run.call, Run.step, Run.setHeader, Run.setContentLength, Res.fresh, setHeaderIn]

theorem downloadResume_eq_of_absent (fs : FileSystem) (stream : ReadOutcome)
    (hf : fs.existsSync (fs.join fs.dirname resumeFileName) = false) :
    downloadResume fs stream =
      { res := { statusCode := 404, headers := [], headersSent := true,
                 head := some (404, jsonHeaders [] notFoundReply), sent := [],
                 json := some notFoundReply, finished := true }
        calls := [.existsSync (fs.join fs.dirname resumeFileName), .status 404,
          .json notFoundReply]
        console := [⟨.log, "📄 Resume download requested", .none⟩,
          ⟨.log, "📍 Looking for file:", .str (fs.join fs.dirname resumeFileName)⟩,
          ⟨.log, "❌ Resume file not found:", .str resumeFileName⟩]
        thrown := none } := by
  simp [downloadResume, hf, Run.start, Run.log, Run.call, Run.step, Run.status, Run.json,
    Run.tryCatch, Res.fresh]

theorem apiResume_eq_of_absent (fs : FileSystem) (transfer : ReadOutcome)
    (hf : fs.existsSync (fs.join fs.dirname resumeFileName) = false) :
    apiResume fs transfer =
      { res := { statusCode := 404, headers := [], headersSent := true,
                 head := some (404, jsonHeaders [] notFoundReply), sent := [],
                 json := some notFoundReply, finished := true }
        calls := [.existsSync (fs.join fs.dirname resumeFileName), .status 404,
          .json notFoundReply]
        console := []
        thrown := none } := by
  have hf2 : fs.existsSync (fs.join fs.dirname "Aniket Ressume.docx") = false := hf
  simp [apiResume, hf2, Run.start, Run.call, Run.step, Run.status, Run.json,
    Run.tryCatch, Res.fresh, notFoundReply, resumeFileName]

/-- The headers of the 500 reply of the `error` listener, whatever the size
that had been stored in `Content-Length`. -/
theorem jsonHeaders_stream_error (n : Nat) :
    jsonHeaders [("Content-Type", .str docxMime),
        ("Content-Disposition", .str attachmentDisposition), ("Content-Length", .num n)]
        ⟨false, "Error downloading resume", none⟩
      = [("Content-Type", .str (docxMime ++ "; charset=utf-8")),
          ("Content-Disposition", .str attachmentDisposition), ("Content-Length", .num 54)] := by
  rfl

/-- C6 fails at a read that fails before its first byte: the resume is on
disk with three bytes, and the response that leaves is the 500 reply of the
`error` listener, with `Content-Length` 54 and a `Content-Type` that carries a
charset, not the size of the file and the bare `.docx` type. -/
theorem download_resume_failed_open_headers :
    sampleDisk.files (sampleDisk.join sampleDisk.dirname resumeFileName) = some [80, 75, 3] ∧
      (downloadResume sampleDisk failedOpen).res.sentStatus = some 500 ∧
      (downloadResume sampleDisk failedOpen).res.sentHeader "Content-Length"
        = some (.num 54) ∧
      (downloadResume sampleDisk failedOpen).res.sentHeader "Content-Length"
        ≠ some (.num 3) ∧
      (downloadResume sampleDisk failedOpen).res.sentHeader "Content-Type"
        = some (.str
          "application/vnd.openxmlformats-officedocument.wordprocessingml.document; charset=utf-8") ∧
      (downloadResume sampleDisk failedOpen).res.sentHeader "Content-Type"
        ≠ some (.str docxMime) := by
  refine ⟨rfl, rfl, rfl, ?_, rfl, ?_⟩
  · have h : (downloadResume sampleDisk failedOpen).res.sentHeader "Content-Length"
        = some (.num 54) := rfl
    rw [h]
    decide
  · have h : (downloadResume sampleDisk failedOpen).res.sentHeader "Content-Type"
        = some (.str (docxMime ++ "; charset=utf-8")) := rfl
    rw [h]
    decide

/-- C6 as amended: when the resume is on disk, the `/download-resume` handler
sets `Content-Type` to the `.docx` MIME type, `Content-Disposition` to the
attachment disposition that names `Aniket_Igade_Resume.docx`, and
`Content-Length` to the size of the file, before it pipes the stream. Unless
the read fails before its first byte, the header block leaves with status 200
and these three headers; when the read ends without error the body is the
content of the file, so as long as the size on disk. When the read fails
before its first byte the response is the 500 reply of the `error` listener,
with the `Content-Type` and `Content-Length` of that reply. -/
theorem download_resume_response (fs : FileSystem) (stream : ReadOutcome)
    (content : List Byte)
    (hf : fs.files (fs.join fs.dirname resumeFileName) = some content) :
    [Call.existsSync (fs.join fs.dirname resumeFileName),
        .setHeader "Content-Type" (.str docxMime),
        .setHeader "Content-Disposition" (.str attachmentDisposition),
        .statSync (fs.join fs.dirname resumeFileName),
        .setHeader "Content-Length" (.num content.length),
        .createReadStream (fs.join fs.dirname resumeFileName), .pipe]
      <+: (downloadResume fs stream).calls ∧
    occursIn downloadName attachmentDisposition ∧
    fs.statSize (fs.join fs.dirname resumeFileName) = .ok content.length ∧
    (stream.error = none ∨ stream.chunks ≠ [] →
      (downloadResume fs stream).res.sentStatus = some 200 ∧
      (downloadResume fs stream).res.sentHeader "Content-Type" = some (.str docxMime) ∧
      (downloadResume fs stream).res.sentHeader "Content-Disposition"
        = some (.str attachmentDisposition) ∧
      (downloadResume fs stream).res.sentHeader "Content-Length"
        = some (.num content.length)) ∧
    (stream.error = none → stream.reads content →
      (downloadResume fs stream).res.sent = content ∧
      (downloadResume fs stream).res.sent.length = content.length ∧
      (downloadResume fs stream).res.json = none ∧
      (downloadResume fs stream).res.finished = true ∧
      (downloadResume fs stream).thrown = none) ∧
    (∀ e, stream.error = some e → stream.chunks = [] →
      (downloadResume fs stream).reply
        = some ⟨500, ⟨false, "Error downloading resume", none⟩⟩ ∧
      (downloadResume fs stream).res.sentStatus = some 500 ∧
      (downloadResume fs stream).res.sentHeader "Content-Type"
        = some (.str (docxMime ++ "; charset=utf-8")) ∧
      (downloadResume fs stream).res.sentHeader "Content-Length" = some (.num 54)) := by
  rw [downloadResume_eq_of_found fs stream content hf]
  refine ⟨?_, ⟨"attachment; filename=\"".data, "\"".data, rfl⟩, ?_, ?_, ?_, ?_⟩
  · unfold runStream
    cases he : stream.error with
    | none =>
      simp [onStreamEnd, Run.log, Run.step, (pipeChunks_rest _ _).1, (pipeChunks_rest _ _).2.2]
    | some e =>
      simp only [onStreamError, Run.log, Run.step, Run.status, Run.json,
        (pipeChunks_rest _ _).1, (pipeChunks_rest _ _).2.2]
      split <;> simp
  · simp [FileSystem.statSize, hf]
  · intro hb
    cases he : stream.error with
    | none =>
      cases hcs : stream.chunks <;>
        simp [runStream, he, hcs, onStreamEnd, Run.log, Run.step, (pipeChunks_rest _ _).2.2,
          pipeChunks_res, Res.end_, Res.headNow, Res.sentStatus, Res.sentHeader, lookupHeader]
    | some e =>
      have hne : stream.chunks ≠ [] := by
        rcases hb with h | h
        · rw [he] at h
          exact absurd h (by simp)
        · exact h
      cases hcs : stream.chunks with
      | nil => exact absurd hcs hne
      | cons c cs =>
        simp [runStream, he, hcs, onStreamError, Run.log, Run.step, Run.status, Run.json,
          (pipeChunks_rest _ _).2.2, pipeChunks_res, Res.headNow, Res.sentStatus,
          Res.sentHeader, lookupHeader]
  · intro he hr
    have hc : stream.chunks.flatten = content := by
      unfold ReadOutcome.reads at hr
      rw [he] at hr
      exact hr
    simp [runStream, he, onStreamEnd, Run.log, Run.step, (pipeChunks_rest _ _).2.2,
      pipeChunks_res, Res.end_, hc]
  · intro e he hcs
    simp [runStream, he, hcs, pipeChunks, onStreamError, Run.log, Run.step, Run.status,
      Run.json, Run.reply, jsonHeaders_stream_error, Res.sentStatus, Res.sentHeader,
      lookupHeader]

theorem download_resume_response_witness :
    (downloadResume sampleDisk completeRead).res.sentHeader "Content-Length" = some (.num 3) ∧
      (downloadResume sampleDisk completeRead).res.sent = [80, 75, 3] ∧
      (downloadResume sampleDisk brokenRead).res.sentHeader "Content-Length"
        = some (.num 3) :=
  ⟨((download_resume_response sampleDisk completeRead [80, 75, 3] rfl).2.2.2.1
      (Or.inl rfl)).2.2.2,
    ((download_resume_response sampleDisk completeRead [80, 75, 3] rfl).2.2.2.2.1 rfl rfl).1,
    ((download_resume_response sampleDisk brokenRead [80, 75, 3] rfl).2.2.2.1
      (Or.inr (by decide))).2.2.2⟩

/-- C7: when the resume is not on disk, `/download-resume` and `/api/resume`
both answer with status 404 and `success: false`; the two responses are
equal; each handler only tests the existence of the same path and then sends
the reply: no header is set, no stream is opened, no download is started. -/
theorem resume_absent_same_404 (fs : FileSystem) (s₁ s₂ : ReadOutcome)
    (hf : fs.existsSync (fs.join fs.dirname resumeFileName) = false) :
    (downloadResume fs s₁).reply = some ⟨404, ⟨false, "Resume file not found", none⟩⟩ ∧
      (apiResume fs s₂).reply = some ⟨404, ⟨false, "Resume file not found", none⟩⟩ ∧
      (downloadResume fs s₁).res = (apiResume fs s₂).res ∧
      (downloadResume fs s₁).res.headers = [] ∧
      (downloadResume fs s₁).res.sent = [] ∧
      (downloadResume fs s₁).calls
        = [.existsSync (fs.join fs.dirname "Aniket Ressume.docx"), .status 404,
            .json ⟨false, "Resume file not found", none⟩] ∧
      (apiResume fs s₂).calls
        = [.existsSync (fs.join fs.dirname "Aniket Ressume.docx"), .status 404,
            .json ⟨false, "Resume file not found", none⟩] := by
  rw [downloadResume_eq_of_absent fs s₁ hf, apiResume_eq_of_absent fs s₂ hf]
  exact ⟨rfl, rfl, rfl, rfl, rfl, rfl, rfl⟩

theorem resume_absent_same_404_witness :
    emptyDisk.existsSync (emptyDisk.join emptyDisk.dirname resumeFileName) = false ∧
      (downloadResume emptyDisk completeRead).res = (apiResume emptyDisk brokenRead).res :=
  ⟨rfl, (resume_absent_same_404 emptyDisk completeRead brokenRead rfl).2.2.1⟩

/-- C10: `/api/check-files` answers with status 200 and `success: true`; the
`files` list has one entry for each of the five hardcoded names, in their
order; the `path` of an entry is the document root joined with its name and
its `exists` flag is true exactly when there is an entry at that path. -/
theorem check_files_reports (fs : FileSystem) :
    (checkFiles fs).1 = 200 ∧
      (checkFiles fs).2.success = true ∧
      (checkFiles fs).2.files.map FileStatus.file
        = ["index2.html", "Aniket Ressume.docx", "Pt.jpg", "server.js", "package.json"] ∧
      (checkFiles fs).2.files.length = 5 ∧
      ∀ e ∈ (checkFiles fs).2.files,
        e.path = fs.join fs.dirname e.file ∧
          (e.exists_ = true ↔ (fs.files (fs.join fs.dirname e.file)).isSome = true) ∧
          (e.exists_ = false ↔ fs.files (fs.join fs.dirname e.file) = none) := by
  refine ⟨rfl, rfl, by simp [checkFiles, checkedFiles], by simp [checkFiles, checkedFiles], ?_⟩
  intro e he
  simp only [checkFiles, List.mem_map] at he
  obtain ⟨f, -, rfl⟩ := he
  simp [FileSystem.existsSync]

/-- C5 at a failing input: the resume is on disk and the read stream fails
after two bytes have gone to the client. The `error` listener of
`/download-resume` still calls `res.status(500)` and `res.json(...)`; the
second call throws and nothing catches it. On the same input `/api/resume`
makes no call on the response after the failure. A read that fails before
the first byte is answered with status 500 and `success: false`. -/
theorem download_resume_error_after_bytes :
    (downloadResume sampleDisk failedOpen).reply
        = some ⟨500, ⟨false, "Error downloading resume", none⟩⟩ ∧
    (downloadResume sampleDisk brokenRead).res.sent = [80, 75] ∧
      (downloadResume sampleDisk brokenRead).calls
        = [.existsSync "/srv/portfolio/Aniket Ressume.docx",
            .setHeader "Content-Type" (.str docxMime),
            .setHeader "Content-Disposition" (.str attachmentDisposition),
            .statSync "/srv/portfolio/Aniket Ressume.docx",
            .setHeader "Content-Length" (.num 3),
            .createReadStream "/srv/portfolio/Aniket Ressume.docx", .pipe,
            .status 500, .json ⟨false, "Error downloading resume", none⟩] ∧
      (downloadResume sampleDisk brokenRead).thrown = some errHeadersSent ∧
      (apiResume sampleDisk brokenRead).calls
        = [.existsSync "/srv/portfolio/Aniket Ressume.docx",
            .download "/srv/portfolio/Aniket Ressume.docx" "Aniket_Igade_Resume.docx"] ∧
      (apiResume sampleDisk brokenRead).thrown = none := by
  refine ⟨?_, ?_, ?_, ?_, ?_, ?_⟩ <;> rfl

end Portfolio
